import Mathlib

/-!
Verification development for the debounced command coordinator of a
status-panel applet controlling remote lighting resources
(`src/app.rs`, `src/config.rs`).

The update loop of the application (`AppModel::update`) is shallowly
embedded as a pure function `update : AppModel → Msg → AppModel × List Eff`.
State mutation becomes explicit state passing; the iced `Task` values
returned by each handler are modelled as a list of effects (`Eff`):
remote pushes, remote fetches, immediate self-messages and delayed
self-messages.  `HashMap` fields are modelled as association lists with
HashMap semantics (`hmGet`/`hmInsert`/`hmRemove`).  Machine floats
(brightness slider values, HSV components, RGB components) are modelled
as `ℚ`; Rust's saturating float-to-integer `as` casts become
`rustAsU8`/`rustAsU16`.  UI-only state (popups, menus, the widget-level
colour-picker model, rectangle trackers) and UI-only messages are out of
scope of every claim and are not part of the embedded state.
-/

/-- Truncation of a rational toward zero, the rounding Rust uses both for
float-to-integer `as` casts and for the float remainder operator `%`. -/
def ratTrunc (q : ℚ) : ℤ :=
  if 0 ≤ q then ⌊q⌋ else -⌊-q⌋

/-- Rust's float remainder `x % y` (remainder of truncating division). -/
def rustFRem (x y : ℚ) : ℚ :=
  x - y * (ratTrunc (x / y) : ℚ)

/-- Rust's saturating cast `x as u8` for a float `x` (truncate toward
zero, clamp into `[0, 255]`). -/
def rustAsU8 (q : ℚ) : ℕ :=
  (max 0 (min 255 (ratTrunc q))).toNat

/-- Rust's saturating cast `x as u16` for a float `x` (truncate toward
zero, clamp into `[0, 65535]`). -/
def rustAsU16 (q : ℚ) : ℕ :=
  (max 0 (min 65535 (ratTrunc q))).toNat

/-- The sector-selection `if`/`else if` chain of `hsv_to_rgb`
(`src/app.rs:1383-1395`): pick the pre-offset `(r1, g1, b1)` triple from
the 60-degree sector the hue angle `h` falls into.  Rust's
`(lo..hi).contains(&h)` is the half-open test `lo ≤ h ∧ h < hi`; the
trailing `else` catches everything else, in particular `h = 360`. -/
def hsvTriple (h c x : ℚ) : ℚ × ℚ × ℚ :=
  if 0 ≤ h ∧ h < 60 then (c, x, 0)
  else if 60 ≤ h ∧ h < 120 then (x, c, 0)
  else if 120 ≤ h ∧ h < 180 then (0, c, x)
  else if 180 ≤ h ∧ h < 240 then (0, x, c)
  else if 240 ≤ h ∧ h < 300 then (x, 0, c)
  else (c, 0, x)

/-- `hsv_to_rgb` (`src/app.rs:1371-1401`): convert a device-range HSV
triple (hue 0-65535, saturation/brightness 0-254, each optional) to a
display RGB triple in `[0,1]`; any missing component yields the fallback
colour `(0,0,0)`. -/
def hsv_to_rgb (hue : Option ℕ) (saturation : Option ℕ) (brightness : Option ℕ) :
    ℚ × ℚ × ℚ :=
  match hue, saturation, brightness with
  | some hue, some sat, some bri =>
    let h : ℚ := (hue : ℚ) * 360 / 65535
    let s : ℚ := (sat : ℚ) / 254
    let v : ℚ := (bri : ℚ) / 254
    let c := v * s
    let x := c * (1 - |rustFRem (h / 60) 2 - 1|)
    let m := v - c
    let t := hsvTriple h c x
    (t.1 + m, t.2.1 + m, t.2.2 + m)
  | _, _, _ => (0, 0, 0)

/-- A `palette::Hsv` colour as delivered by the colour-picker widget:
`hue` is `hue.into_positive_degrees()` (degrees in `[0, 360)`),
saturation and value are normalized to `[0, 1]`. -/
structure Hsv where
  hue : ℚ
  saturation : ℚ
  value : ℚ
deriving DecidableEq, Repr

/-- `hsv_palette_to_hsv_lib` (`src/app.rs:1355-1361`): map a normalized
picker colour to the remote device's integer ranges. -/
def hsv_palette_to_hsv_lib (color : Hsv) : ℕ × ℕ × ℕ :=
  (rustAsU16 (color.hue / 360 * 65535),
   rustAsU8 (color.saturation * 254),
   rustAsU8 (color.value * 254))

/-- `hsv_palette_to_rgb` (`src/app.rs:1363-1369`). -/
def hsv_palette_to_rgb (color : Hsv) : ℚ × ℚ × ℚ :=
  hsv_to_rgb
    (some (rustAsU16 (color.hue / 360 * 65535)))
    (some (rustAsU8 (color.saturation * 254)))
    (some (rustAsU8 (color.value * 254)))

/-- View model of a light (`LightVm`, `src/app.rs:74-80`). -/
structure LightVm where
  id : String
  name : String
  isOn : Option Bool
  brightness : Option ℕ
  color : Option (ℚ × ℚ × ℚ)
deriving DecidableEq, Repr

/-- View model of a group (`GroupVm`, `src/app.rs:82-89`). -/
structure GroupVm where
  id : String
  name : String
  isOn : Option Bool
  brightness : Option ℕ
  color : Option (ℚ × ℚ × ℚ)
  lights : List String
deriving DecidableEq, Repr

/-- View model of a scene (`SceneVm`, `src/app.rs:91-95`). -/
structure SceneVm where
  id : String
  name : String
  group : String
deriving DecidableEq, Repr

/-- The state of a fetched `huelib` light (`light.state`): each field the
bridge may omit is optional. -/
structure FetchedLightState where
  isOn : Option Bool
  brightness : Option ℕ
  hue : Option ℕ
  saturation : Option ℕ
deriving DecidableEq, Repr

/-- A light as returned by `bridge.get_all_lights()`. -/
structure FetchedLight where
  id : String
  name : String
  state : FetchedLightState
deriving DecidableEq, Repr

/-- The state of a fetched `huelib` group (`group::State`). -/
structure FetchedGroupState where
  any_on : Bool
deriving DecidableEq, Repr

/-- A group as returned by `bridge.get_all_groups()`; `state` is optional. -/
structure FetchedGroup where
  id : String
  name : String
  state : Option FetchedGroupState
  lights : List String
deriving DecidableEq, Repr

/-- A scene as returned by `bridge.get_all_scenes()`; the targeted group
is optional. -/
structure FetchedScene where
  id : String
  name : String
  group : Option String
deriving DecidableEq, Repr

/-- The persisted configuration (`src/config.rs`): bridge address and
access token (`username`), both optional.  The address is opaque here. -/
structure Cfg where
  bridge_ip : Option String
  username : Option String
deriving DecidableEq, Repr

/-- A connected bridge handle (`huelib::Bridge::new(ip, username)`). -/
structure Bridge where
  ip : String
  username : String
deriving DecidableEq, Repr

/-- `get_bridge` (`src/app.rs:1343-1353`): a bridge handle exists only
when both the address and the token are configured. -/
def get_bridge (config : Cfg) : Option Bridge :=
  match config.bridge_ip with
  | none => none
  | some bridge_ip =>
    match config.username with
    | none => none
    | some username => some { ip := bridge_ip, username := username }

/-- A `huelib::resource::light::StateModifier` as built by the handlers:
only the fields the source ever sets. `Adjust::Override` payloads are
stored directly. -/
structure LightStateModifier where
  isOn : Option Bool := none
  brightness : Option ℕ := none
  hue : Option ℕ := none
  saturation : Option ℕ := none
deriving DecidableEq, Repr

/-- A `huelib::resource::group::StateModifier` as built by the handlers. -/
structure GroupStateModifier where
  isOn : Option Bool := none
  brightness : Option ℕ := none
  hue : Option ℕ := none
  saturation : Option ℕ := none
  scene : Option String := none
deriving DecidableEq, Repr

deriving instance DecidableEq for Except

/-- The colour-picker widget update delivered to `SetLightColor` /
`SetGroupColor`: the coordinator only acts on `ActiveColor`; every other
`ColorPickerUpdate` variant is collapsed into `Other`. -/
inductive PickerUpdate where
  | ActiveColor (color : Hsv)
  | Other
deriving DecidableEq, Repr

/-- The subset of `Message` (`src/app.rs:99-133`) processed by the
debounced command coordinator, the view-model store and the convergence
scheduler.  Fetch results are `Except`-valued like the source's
`Result`; the payload of a successful push-response list is irrelevant
to every handler and is modelled as `Unit`. -/
inductive Msg where
  | LoadLights
  | LoadGroups
  | LoadScenes
  | LightsLoaded (r : Except String (List FetchedLight))
  | GroupsLoaded (r : Except String (List FetchedGroup))
  | ScenesLoaded (r : Except String (List FetchedScene))
  | ToggleLight (light_id : String) (new_state : Bool)
  | ToggleGroup (group_id : String) (new_state : Bool)
  | ActivateScene (scene_id : String)
  | SceneActivated (r : Except String Unit)
  | ResponsesModified (r : Except String Unit)
  | SetLightBrightness (light_id : String) (new_brightness : ℚ)
  | SetGroupBrightness (group_id : String) (new_brightness : ℚ)
  | SetLightColor (u : PickerUpdate)
  | SetGroupColor (u : PickerUpdate)
  | ApplyLightBrightness (light_id : String) (counter : ℕ)
  | ApplyGroupBrightness (group_id : String) (counter : ℕ)
  | ApplyLightColor (light_id : String) (counter : ℕ)
  | ApplyGroupColor (group_id : String) (counter : ℕ)
deriving DecidableEq, Repr

/-- The effects a handler returns (the `Task` values of the source):
remote pushes, remote fetches, an immediate self-message
(`Task::perform(async {}, ...)`), and a delayed self-message
(`tokio::time::sleep` followed by a message). -/
inductive Eff where
  | pushLightState (light_id : String) (m : LightStateModifier)
  | pushGroupState (group_id : String) (m : GroupStateModifier)
  | fetchLights
  | fetchGroups
  | fetchScenes
  | emit (msg : Msg)
  | sleepThen (ms : ℕ) (msg : Msg)
deriving DecidableEq, Repr

/-- `HashMap` lookup on the association-list model. -/
def hmGet {α : Type} (m : List (String × α)) (k : String) : Option α :=
  match m.find? (fun p => p.1 == k) with
  | some p => some p.2
  | none => none

/-- `HashMap::insert`: at most one entry per key survives. -/
def hmInsert {α : Type} (m : List (String × α)) (k : String) (v : α) :
    List (String × α) :=
  (k, v) :: m.filter (fun p => p.1 != k)

/-- `HashMap::remove`. -/
def hmRemove {α : Type} (m : List (String × α)) (k : String) :
    List (String × α) :=
  m.filter (fun p => p.1 != k)

/-- Rust's `iter_mut().find(p)` followed by a mutation `f` of the found
element: rewrite the first element satisfying `p`, keep the rest. -/
def updateFirst {α : Type} (p : α → Bool) (f : α → α) : List α → List α
  | [] => []
  | x :: xs => if p x then f x :: xs else x :: updateFirst p f xs

/-- The fan-out loop of `ToggleGroup` (`src/app.rs:644-650`): force every
member light's on-state. -/
def setLightsOn (ids : List String) (b : Bool) (lights : List LightVm) :
    List LightVm :=
  ids.foldl
    (fun ls lid =>
      updateFirst (fun l => l.id == lid) (fun l => { l with isOn := some b }) ls)
    lights

/-- The fan-out loop of `SetGroupBrightness` (`src/app.rs:763-769`). -/
def setLightsBrightness (ids : List String) (b : ℕ) (lights : List LightVm) :
    List LightVm :=
  ids.foldl
    (fun ls lid =>
      updateFirst (fun l => l.id == lid)
        (fun l => { l with brightness := some b }) ls)
    lights

/-- The fan-out loop of `SetGroupColor` (`src/app.rs:885-891`). -/
def setLightsColor (ids : List String) (rgb : ℚ × ℚ × ℚ)
    (lights : List LightVm) : List LightVm :=
  ids.foldl
    (fun ls lid =>
      updateFirst (fun l => l.id == lid)
        (fun l => { l with color := some rgb }) ls)
    lights

/-- `sort_by(|a, b| a.name.to_lowercase().cmp(&b.name.to_lowercase()))`:
stable ascending sort by case-insensitive name. -/
def sortByNameCI {α : Type} (name : α → String) (xs : List α) : List α :=
  xs.mergeSort (fun a b => decide ((name a).toLower ≤ (name b).toLower))

/-- Mapping of a fetched light to its view model
(`src/app.rs:514-527`). -/
def lightVmOfFetched (light : FetchedLight) : LightVm :=
  { id := light.id
    name := light.name
    isOn := light.state.isOn
    brightness := light.state.brightness
    color := some (hsv_to_rgb light.state.hue light.state.saturation
      light.state.brightness) }

/-- The first-member resolution of `GroupsLoaded` (`src/app.rs:554-561`):
the view-model light matching the group's first member id, when both the
member list is non-empty and a light with that id is currently known. -/
def firstMemberLight (lights : List LightVm) (memberIds : List String) :
    Option LightVm :=
  match memberIds.head? with
  | some light_id => lights.find? (fun (light : LightVm) => light.id == light_id)
  | none => none

/-- Mapping of a fetched group to its view model (`src/app.rs:551-581`):
brightness and colour are mirrored from the group's first member light
resolved in the current light list; an unresolvable first member yields
colour `(0,0,0)` and no brightness; the on-state is the fetched
`state.any_on`, absent when the fetch supplied no state. -/
def groupVmOfFetched (lights : List LightVm) (group : FetchedGroup) : GroupVm :=
  let first_light := firstMemberLight lights group.lights
  let color :=
    match first_light with
    | some fl => fl.color
    | none => some ((0 : ℚ), (0 : ℚ), (0 : ℚ))
  let brightness :=
    match first_light with
    | some fl => fl.brightness
    | none => none
  { id := group.id
    name := group.name
    isOn := group.state.map (fun state => state.any_on)
    brightness := brightness
    color := color
    lights := group.lights }

/-- Mapping of a fetched scene to its view model (`src/app.rs:606-613`). -/
def sceneVmOfFetched (scene : FetchedScene) : SceneVm :=
  { id := scene.id
    name := scene.name
    group := scene.group.getD "" }

/-- The coordinator-relevant state of `AppModel` (`src/app.rs:25-72`):
the view-model store, the configuration, the active colour-picker
selection, the four pending-edit maps and the process-wide debounce
generation counter. -/
structure AppModel where
  config : Cfg
  lights : List LightVm
  groups : List GroupVm
  scenes : List SceneVm
  active_color_picker_item : Option (String × String)
  pending_light_brightness : List (String × (ℚ × ℕ))
  pending_group_brightness : List (String × (ℚ × ℕ))
  pending_light_color : List (String × ((ℕ × ℕ × ℕ) × ℕ))
  pending_group_color : List (String × ((ℕ × ℕ × ℕ) × ℕ))
  debounce_counter : ℕ
deriving DecidableEq, Repr

/-- `AppModel::update` (`src/app.rs:381-1026`) restricted to the
coordinator messages: one event processed on the single-threaded loop,
returning the successor state and the effects of the returned `Task`. -/
def update (s : AppModel) (msg : Msg) : AppModel × List Eff :=
  match msg with
  | .LoadLights =>
    match get_bridge s.config with
    | none => (s, [])
    | some _ => (s, [.fetchLights])
  | .LoadGroups =>
    match get_bridge s.config with
    | none => (s, [])
    | some _ => (s, [.fetchGroups])
  | .LoadScenes =>
    match get_bridge s.config with
    | none => (s, [])
    | some _ => (s, [.fetchScenes])
  | .LightsLoaded (.ok lights) =>
    let lights_vm := sortByNameCI LightVm.name (lights.map lightVmOfFetched)
    ({ s with lights := lights_vm }, [])
  | .LightsLoaded (.error _) => (s, [])
  | .GroupsLoaded (.ok groups) =>
    let groups_vm := sortByNameCI GroupVm.name (groups.map (groupVmOfFetched s.lights))
    ({ s with groups := groups_vm }, [])
  | .GroupsLoaded (.error _) => (s, [])
  | .ScenesLoaded (.ok scenes) =>
    let scenes_vm := sortByNameCI SceneVm.name (scenes.map sceneVmOfFetched)
    ({ s with scenes := scenes_vm }, [])
  | .ScenesLoaded (.error _) => (s, [])
  | .ToggleLight light_id new_state =>
    let lights1 := updateFirst (fun (light : LightVm) => light.id == light_id)
      (fun light => { light with isOn := some new_state }) s.lights
    let s1 := { s with lights := lights1 }
    match get_bridge s1.config with
    | none => (s1, [])
    | some _ => (s1, [.pushLightState light_id { isOn := some new_state }])
  | .ToggleGroup group_id new_state =>
    let s1 :=
      match s.groups.find? (fun (group : GroupVm) => group.id == group_id) with
      | none => s
      | some group =>
        let groups1 := updateFirst (fun (g : GroupVm) => g.id == group_id)
          (fun g => { g with isOn := some new_state }) s.groups
        let lights1 := setLightsOn group.lights new_state s.lights
        { s with groups := groups1, lights := lights1 }
    match get_bridge s1.config with
    | none => (s1, [])
    | some _ => (s1, [.pushGroupState group_id { isOn := some new_state }])
  | .ActivateScene scene_id =>
    match s.scenes.find? (fun (scene : SceneVm) => scene.id == scene_id) with
    | some scene =>
      match get_bridge s.config with
      | none => (s, [])
      | some _ =>
        (s, [.pushGroupState scene.group { scene := some scene_id }])
    | none => (s, [])
  | .SceneActivated (.ok _) =>
    (s, [.emit (.ResponsesModified (.ok ())),
         .sleepThen 10000 .LoadGroups,
         .sleepThen 10000 .LoadLights])
  | .SceneActivated (.error _) => (s, [])
  | .ResponsesModified _ => (s, [])
  | .SetLightBrightness light_id new_brightness =>
    let lights1 := updateFirst (fun (light : LightVm) => light.id == light_id)
      (fun light => { light with brightness := some (rustAsU8 new_brightness) })
      s.lights
    let counter := s.debounce_counter + 1
    let pending1 := hmInsert s.pending_light_brightness light_id (new_brightness, counter)
    ({ s with lights := lights1, debounce_counter := counter,
              pending_light_brightness := pending1 },
     [.sleepThen 300 (.ApplyLightBrightness light_id counter)])
  | .ApplyLightBrightness light_id counter =>
    match hmGet s.pending_light_brightness light_id with
    | some (brightness, current_counter) =>
      if current_counter = counter then
        let removed := hmRemove s.pending_light_brightness light_id
        let s1 := { s with pending_light_brightness := removed }
        match get_bridge s1.config with
        | none => (s1, [])
        | some _ =>
          (s1, [.pushLightState light_id
            { brightness := some (rustAsU8 brightness) }])
      else (s, [])
    | none => (s, [])
  | .SetGroupBrightness group_id new_brightness =>
    let s1 :=
      match s.groups.find? (fun (group : GroupVm) => group.id == group_id) with
      | none => s
      | some group =>
        if group.brightness.isSome then
          let groups1 := updateFirst (fun (g : GroupVm) => g.id == group_id)
            (fun g => { g with brightness := some (rustAsU8 new_brightness) })
            s.groups
          let lights1 := setLightsBrightness group.lights
            (rustAsU8 new_brightness) s.lights
          { s with groups := groups1, lights := lights1 }
        else s
    let counter := s1.debounce_counter + 1
    let pending1 := hmInsert s1.pending_group_brightness group_id (new_brightness, counter)
    ({ s1 with debounce_counter := counter, pending_group_brightness := pending1 },
     [.sleepThen 300 (.ApplyGroupBrightness group_id counter)])
  | .ApplyGroupBrightness group_id counter =>
    match hmGet s.pending_group_brightness group_id with
    | some (brightness, current_counter) =>
      if current_counter = counter then
        let removed := hmRemove s.pending_group_brightness group_id
        let s1 := { s with pending_group_brightness := removed }
        match get_bridge s1.config with
        | none => (s1, [])
        | some _ =>
          (s1, [.pushGroupState group_id
            { brightness := some (rustAsU8 brightness) }])
      else (s, [])
    | none => (s, [])
  | .SetLightColor u =>
    match s.lights.find? (fun (light : LightVm) =>
        some light.id == s.active_color_picker_item.map (fun p => p.1)) with
    | some light =>
      match u with
      | .ActiveColor color =>
        let new_rgb := hsv_palette_to_rgb color
        let hsb := hsv_palette_to_hsv_lib color
        let light_id := light.id
        let counter := s.debounce_counter + 1
        let lights1 := updateFirst (fun (l : LightVm) =>
            some l.id == s.active_color_picker_item.map (fun p => p.1))
          (fun l => { l with color := some new_rgb }) s.lights
        let pending1 := hmInsert s.pending_light_color light_id (hsb, counter)
        ({ s with lights := lights1, debounce_counter := counter,
                  pending_light_color := pending1 },
         [.sleepThen 300 (.ApplyLightColor light_id counter)])
      | .Other => (s, [])
    | none => (s, [])
  | .ApplyLightColor light_id counter =>
    match hmGet s.pending_light_color light_id with
    | some (color_values, current_counter) =>
      if current_counter = counter then
        let removed := hmRemove s.pending_light_color light_id
        let s1 := { s with pending_light_color := removed }
        match get_bridge s1.config with
        | none => (s1, [])
        | some _ =>
          (s1, [.pushLightState light_id
            { hue := some color_values.1
              saturation := some color_values.2.1
              brightness := some color_values.2.2 }])
      else (s, [])
    | none => (s, [])
  | .SetGroupColor u =>
    match s.groups.find? (fun (group : GroupVm) =>
        some group.id == s.active_color_picker_item.map (fun p => p.1)) with
    | some group =>
      match u with
      | .ActiveColor color =>
        let new_rgb := hsv_palette_to_rgb color
        let hsb := hsv_palette_to_hsv_lib color
        let group_id := group.id
        let counter := s.debounce_counter + 1
        let groups1 := updateFirst (fun (g : GroupVm) =>
            some g.id == s.active_color_picker_item.map (fun p => p.1))
          (fun g => { g with color := some new_rgb }) s.groups
        let lights1 := setLightsColor group.lights new_rgb s.lights
        let pending1 := hmInsert s.pending_group_color group_id (hsb, counter)
        ({ s with groups := groups1, lights := lights1, debounce_counter := counter,
                  pending_group_color := pending1 },
         [.sleepThen 300 (.ApplyGroupColor group_id counter)])
      | .Other => (s, [])
    | none => (s, [])
  | .ApplyGroupColor group_id counter =>
    match hmGet s.pending_group_color group_id with
    | some (color_values, current_counter) =>
      if current_counter = counter then
        let removed := hmRemove s.pending_group_color group_id
        let s1 := { s with pending_group_color := removed }
        match get_bridge s1.config with
        | none => (s1, [])
        | some _ =>
          (s1, [.pushGroupState group_id
            { hue := some color_values.1
              saturation := some color_values.2.1
              brightness := some color_values.2.2 }])
      else (s, [])
    | none => (s, [])

def run (s : AppModel) : List Msg → AppModel × List Eff
  | [] => (s, [])
  | m :: ms =>
    let r1 := update s m
    let r2 := run r1.1 ms
    (r2.1, r1.2 ++ r2.2)

/-! ## Basic lemmas about the map and list operations -/

/-- The key `k` holds no pending edit whose stored counter equals `c`:
either the map has no entry for `k`, or its entry carries a different
(newer or older) generation counter.  This is exactly the situation in
which a delayed commit event is stale. -/
def staleFor {α : Type} (m : List (String × (α × ℕ))) (k : String) (c : ℕ) : Prop :=
  ∀ v cur, hmGet m k = some (v, cur) → cur ≠ c

/-- The "at most one Pending Edit per (resource id, attribute class) key"
invariant: in each of the four pending-edit maps the keys are pairwise
distinct. -/
def pendingKeysNodup (s : AppModel) : Prop :=
  (s.pending_light_brightness.map Prod.fst).Nodup ∧
  (s.pending_group_brightness.map Prod.fst).Nodup ∧
  (s.pending_light_color.map Prod.fst).Nodup ∧
  (s.pending_group_color.map Prod.fst).Nodup

/-- A fully configured bridge (both address and token present), shared by
the concrete instantiations below. -/
def cfgFull : Cfg := { bridge_ip := some "192.168.1.2", username := some "token" }

/-- A configuration whose access token is absent. -/
def cfgNoUser : Cfg := { bridge_ip := some "192.168.1.2", username := none }

/-- The freshly initialized coordinator state (`AppModel::init`) over a
given configuration: empty stores, empty pending maps, counter 0. -/
def emptyModel (cfg : Cfg) : AppModel :=
  { config := cfg
    lights := []
    groups := []
    scenes := []
    active_color_picker_item := none
    pending_light_brightness := []
    pending_group_brightness := []
    pending_light_color := []
    pending_group_color := []
    debounce_counter := 0 }

/-- A coordinator state holding one scene `"s1"` targeting group `"g1"`,
with a fully configured bridge. -/
def c3State : AppModel :=
  { emptyModel cfgFull with
      scenes := [{ id := "s1", name := "Scene", group := "g1" }] }

/-- A known light that is currently on. -/
def lightOn : LightVm :=
  { id := "l1", name := "Lamp", isOn := some true, brightness := some 5,
    color := none }

/-- A state knowing exactly one light, `"l1"`, which is on. -/
def c4State : AppModel := { emptyModel cfgFull with lights := [lightOn] }

/-- A fetched group over member `"l1"` that carries no explicit state. -/
def c4Fetched : FetchedGroup :=
  { id := "g1", name := "G", state := none, lights := ["l1"] }

/-- A view-model group with an empty member list and unknown brightness,
as produced by a replacement for a member-less fetched group. -/
def c9GroupVm : GroupVm :=
  { id := "g0", name := "Empty", isOn := some false, brightness := none,
    color := some (0, 0, 0), lights := [] }

/-- A state knowing only the member-less group, with its colour picker
active on that group. -/
def c9State : AppModel :=
  { emptyModel cfgFull with
      groups := [c9GroupVm]
      active_color_picker_item := some ("g0", "group") }

/-- A member light with a known brightness. -/
def c6Light : LightVm :=
  { id := "l1", name := "Lamp", isOn := some true, brightness := some 5,
    color := none }

/-- A group over member `"l1"` whose own displayed brightness is
unknown. -/
def c6Group : GroupVm :=
  { id := "g1", name := "G", isOn := some true, brightness := none,
    color := none, lights := ["l1"] }

/-- The state for the C6 counterexample: the group is present in the
store but its displayed brightness is unknown. -/
def c6State : AppModel :=
  { emptyModel cfgFull with lights := [c6Light], groups := [c6Group] }

/-- A group over member `"l1"` with a known displayed brightness. -/
def c6OkGroup : GroupVm :=
  { id := "g1", name := "G", isOn := some true, brightness := some 7,
    color := none, lights := ["l1"] }

/-- The state for the C6 witness: group brightness known, colour picker
active on the group. -/
def c6OkState : AppModel :=
  { emptyModel cfgFull with
      lights := [c6Light]
      groups := [c6OkGroup]
      active_color_picker_item := some ("g1", "group") }

/-- An abstract event of a rapid-edit episode on one light-brightness
key: `eset i` is the user's `i`-th edit (1-indexed), `efire i` is the
delayed commit scheduled 300 ms after `eset i`. -/
inductive TEv where
  | eset (i : ℕ)
  | efire (i : ℕ)
deriving DecidableEq, Repr

/-- Interpret a rapid-edit event as the coordinator message it becomes:
the `i`-th edit submits value `v i`, and its delayed commit carries the
generation counter `c0 + i` it captured (where `c0` is the counter value
before the episode). -/
def toMsgC1 (k : String) (v : ℕ → ℚ) (c0 : ℕ) : TEv → Msg
  | .eset i => .SetLightBrightness k (v i)
  | .efire i => .ApplyLightBrightness k (c0 + i)

/-- Well-formed interleavings of a rapid-edit episode of `N` edits, after
`j` edits have already been processed and the commits with indices in
`F` have already fired.  The edits arrive in order.  "Each edit within
the settle delay of the previous" makes commit `i < N` fire strictly
after edit `i+1` (its 300 ms expire only after the next edit was already
submitted), hence `min (i+1) N ≤ j` at the moment commit `i` is
processed; every scheduled commit fires at most once. -/
inductive RapidTrace (N : ℕ) : ℕ → List ℕ → List TEv → Prop where
  | nil (j : ℕ) (F : List ℕ) : RapidTrace N j F []
  | set (j : ℕ) (F : List ℕ) (tr : List TEv) : j < N →
      RapidTrace N (j + 1) F tr → RapidTrace N j F (.eset (j + 1) :: tr)
  | fire (j : ℕ) (F : List ℕ) (tr : List TEv) (i : ℕ) : 1 ≤ i → i ≤ N →
      min (i + 1) N ≤ j → i ∉ F →
      RapidTrace N j (i :: F) tr → RapidTrace N j F (.efire i :: tr)

/-- Is an effect an outbound push to the Remote Resource Client? -/
def isPush : Eff → Bool
  | .pushLightState _ _ => true
  | .pushGroupState _ _ => true
  | _ => false

/-- The state invariant maintained through a rapid-edit episode on key
`k`: `j` edits processed so far, fired commit indices `F`, counter base
`c0`.  The process-wide counter has advanced by `j`; once the final
commit has fired (`N ∈ F`) all edits had been submitted; and the
pending-edit entry for `k` holds the newest edit with its counter,
except before the first edit and after the final commit fired. -/
def C1Inv (k : String) (v : ℕ → ℚ) (c0 N j : ℕ) (F : List ℕ) (s : AppModel) : Prop :=
  j ≤ N ∧
  s.debounce_counter = c0 + j ∧
  (N ∈ F → N ≤ j) ∧
  hmGet s.pending_light_brightness k =
    (if j = 0 ∨ N ∈ F then none else some (v j, c0 + j))

theorem hmGet_hmInsert_self {α : Type} (m : List (String × α)) (k : String) (v : α) :
    hmGet (hmInsert m k v) k = some v := by
  unfold hmGet hmInsert
  rw [List.find?_cons_of_pos]
  simp

theorem hmGet_hmRemove_self {α : Type} (m : List (String × α)) (k : String) :
    hmGet (hmRemove m k) k = none := by
  unfold hmGet hmRemove
  have h : (m.filter (fun p => p.1 != k)).find? (fun p => p.1 == k) = none := by
    rw [List.find?_eq_none]
    intro p hp
    have := (List.mem_filter.mp hp).2
    simpa using this
  rw [h]

theorem updateFirst_of_find?_eq_none {α : Type} (p : α → Bool) (f : α → α)
    (l : List α) (h : l.find? p = none) : updateFirst p f l = l := by
  induction l with
  | nil => rfl
  | cons x xs ih =>
    rw [List.find?_cons] at h
    cases hx : p x with
    | true => rw [hx] at h; exact absurd h (by simp)
    | false =>
      rw [hx] at h
      simp only [updateFirst, hx]
      rw [ih h]
      simp

theorem mem_sortByNameCI {α : Type} (name : α → String) (xs : List α) (a : α) :
    a ∈ sortByNameCI name xs ↔ a ∈ xs :=
  (List.mergeSort_perm xs _).mem_iff

theorem sortByNameCI_singleton {α : Type} (name : α → String) (a : α) :
    sortByNameCI name [a] = [a] :=
  List.perm_singleton.mp (List.mergeSort_perm [a] _)

/-! ## Range facts about the saturating casts -/

theorem ratTrunc_of_nonneg {q : ℚ} (h : 0 ≤ q) : ratTrunc q = ⌊q⌋ := by
  unfold ratTrunc
  rw [if_pos h]

theorem rustAsU16_of_bounds {q : ℚ} (h0 : 0 ≤ q) (h1 : q < 65535) :
    rustAsU16 q = (⌊q⌋).toNat ∧ (⌊q⌋).toNat ≤ 65534 := by
  have hfl0 : (0 : ℤ) ≤ ⌊q⌋ := Int.floor_nonneg.mpr h0
  have hfl1 : ⌊q⌋ < 65535 := by
    have := Int.floor_lt.mpr (by exact_mod_cast h1 : q < ((65535 : ℤ) : ℚ))
    exact this
  constructor
  · unfold rustAsU16
    rw [ratTrunc_of_nonneg h0]
    congr 1
    omega
  · omega

theorem rustAsU8_of_bounds {q : ℚ} (h0 : 0 ≤ q) (h1 : q ≤ 254) :
    rustAsU8 q = (⌊q⌋).toNat ∧ (⌊q⌋).toNat ≤ 254 := by
  have hfl0 : (0 : ℤ) ≤ ⌊q⌋ := Int.floor_nonneg.mpr h0
  have hfl1 : ⌊q⌋ ≤ 254 := by
    have := Int.floor_le_floor (α := ℚ) h1
    simpa using this
  constructor
  · unfold rustAsU8
    rw [ratTrunc_of_nonneg h0]
    congr 1
    omega
  · omega

/-! ## Claim theorems: colour conversion -/

/-- C8: `hsv_to_rgb` returns `(0,0,0)` whenever any of hue, saturation or
brightness is `none`; `hsv_to_rgb (some 0) (some 254) (some 254) = (1,0,0)`;
`hsv_to_rgb (some 21845) (some 254) (some 254)` is `(0,1,0)` exactly (the
hue angle `21845 * 360 / 65535` is exactly `120` degrees, so "approximately
`(0,1,0)`" holds with error zero); and the sector selection is by half-open
intervals `[lo, hi)` whose final sector is closed at `360`: a hue angle of
exactly `60`, `120`, `180`, `240` or `300` degrees selects the sector
beginning at that boundary, and `360` still selects the final sector. -/
theorem c8_hsv_to_rgb_conversion :
    (∀ s b, hsv_to_rgb none s b = (0, 0, 0)) ∧
    (∀ h b, hsv_to_rgb h none b = (0, 0, 0)) ∧
    (∀ h s, hsv_to_rgb h s none = (0, 0, 0)) ∧
    hsv_to_rgb (some 0) (some 254) (some 254) = (1, 0, 0) ∧
    hsv_to_rgb (some 21845) (some 254) (some 254) = (0, 1, 0) ∧
    (∀ c x : ℚ,
      hsvTriple 60 c x = (x, c, 0) ∧
      hsvTriple 120 c x = (0, c, x) ∧
      hsvTriple 180 c x = (0, x, c) ∧
      hsvTriple 240 c x = (x, 0, c) ∧
      hsvTriple 300 c x = (c, 0, x) ∧
      hsvTriple 360 c x = (c, 0, x)) := by
  refine ⟨fun s b => rfl, fun h b => by cases h <;> rfl,
    fun h s => by cases h <;> cases s <;> rfl, ?_, ?_, ?_⟩
  · norm_num [hsv_to_rgb, hsvTriple, rustFRem, ratTrunc]
  · norm_num [hsv_to_rgb, hsvTriple, rustFRem, ratTrunc]
  · intro c x
    refine ⟨?_, ?_, ?_, ?_, ?_, ?_⟩ <;> norm_num [hsvTriple]

/-- C10: for a colour-picker input with hue in positive degrees
`[0, 360)` and saturation and value in `[0, 1]`,
`hsv_palette_to_hsv_lib` yields a hue in `0..=65534` (the device maximum
`65535` is never emitted) and saturation and value in `0..=254`; moreover
each saturating cast acts as plain truncation (the pre-cast value is
already inside the target integer range, so the clamp is never engaged). -/
theorem c10_palette_to_device_ranges (color : Hsv)
    (hh0 : 0 ≤ color.hue) (hh1 : color.hue < 360)
    (hs0 : 0 ≤ color.saturation) (hs1 : color.saturation ≤ 1)
    (hv0 : 0 ≤ color.value) (hv1 : color.value ≤ 1) :
    (hsv_palette_to_hsv_lib color).1 ≤ 65534 ∧
    (hsv_palette_to_hsv_lib color).2.1 ≤ 254 ∧
    (hsv_palette_to_hsv_lib color).2.2 ≤ 254 ∧
    (hsv_palette_to_hsv_lib color).1 = (⌊color.hue / 360 * 65535⌋).toNat ∧
    (hsv_palette_to_hsv_lib color).2.1 = (⌊color.saturation * 254⌋).toNat ∧
    (hsv_palette_to_hsv_lib color).2.2 = (⌊color.value * 254⌋).toNat := by
  have hq0 : (0 : ℚ) ≤ color.hue / 360 * 65535 := by positivity
  have hq1 : color.hue / 360 * 65535 < 65535 := by
    have hlt : color.hue / 360 < 1 := by
      rw [div_lt_one (by norm_num : (0 : ℚ) < 360)]
      exact hh1
    nlinarith
  have hhue := rustAsU16_of_bounds hq0 hq1
  have hsq0 : (0 : ℚ) ≤ color.saturation * 254 := by positivity
  have hsq1 : color.saturation * 254 ≤ 254 := by nlinarith
  have hsat := rustAsU8_of_bounds hsq0 hsq1
  have hvq0 : (0 : ℚ) ≤ color.value * 254 := by positivity
  have hvq1 : color.value * 254 ≤ 254 := by nlinarith
  have hval := rustAsU8_of_bounds hvq0 hvq1
  have e1 : (hsv_palette_to_hsv_lib color).1 = rustAsU16 (color.hue / 360 * 65535) := rfl
  have e2 : (hsv_palette_to_hsv_lib color).2.1 = rustAsU8 (color.saturation * 254) := rfl
  have e3 : (hsv_palette_to_hsv_lib color).2.2 = rustAsU8 (color.value * 254) := rfl
  rw [e1, e2, e3, hhue.1, hsat.1, hval.1]
  exact ⟨hhue.2, hsat.2, hval.2, rfl, rfl, rfl⟩

/-- C10 witness: the range theorem instantiated at the concrete picker
colour with hue 359 degrees and full saturation and value. -/
theorem c10_palette_to_device_ranges_witness :
    (hsv_palette_to_hsv_lib { hue := 359, saturation := 1, value := 1 }).1 ≤ 65534 ∧
    (hsv_palette_to_hsv_lib { hue := 359, saturation := 1, value := 1 }).2.1 ≤ 254 ∧
    (hsv_palette_to_hsv_lib { hue := 359, saturation := 1, value := 1 }).2.2 ≤ 254 ∧
    (hsv_palette_to_hsv_lib { hue := 359, saturation := 1, value := 1 }).1 =
      (⌊(359 : ℚ) / 360 * 65535⌋).toNat ∧
    (hsv_palette_to_hsv_lib { hue := 359, saturation := 1, value := 1 }).2.1 =
      (⌊(1 : ℚ) * 254⌋).toNat ∧
    (hsv_palette_to_hsv_lib { hue := 359, saturation := 1, value := 1 }).2.2 =
      (⌊(1 : ℚ) * 254⌋).toNat :=
  c10_palette_to_device_ranges { hue := 359, saturation := 1, value := 1 }
    (by norm_num) (by norm_num) (by norm_num) (by norm_num) (by norm_num) (by norm_num)

/-! ## Claim theorems: configuration gating and stale commits -/

theorem get_bridge_eq_none_iff (c : Cfg) :
    get_bridge c = none ↔ (c.bridge_ip = none ∨ c.username = none) := by
  unfold get_bridge
  rcases hip : c.bridge_ip with _ | ip <;> rcases hu : c.username with _ | u <;>
    simp [hip, hu]

theorem applyLightBrightness_stale (s : AppModel) (k : String) (c : ℕ)
    (hst : staleFor s.pending_light_brightness k c) :
    update s (.ApplyLightBrightness k c) = (s, []) := by
  simp only [update]
  cases hg : hmGet s.pending_light_brightness k with
  | none => simp [hg]
  | some p =>
    obtain ⟨val, cur⟩ := p
    have hne : cur ≠ c := hst val cur hg
    simp [hg, hne]

theorem applyGroupBrightness_stale (s : AppModel) (k : String) (c : ℕ)
    (hst : staleFor s.pending_group_brightness k c) :
    update s (.ApplyGroupBrightness k c) = (s, []) := by
  simp only [update]
  cases hg : hmGet s.pending_group_brightness k with
  | none => simp [hg]
  | some p =>
    obtain ⟨val, cur⟩ := p
    have hne : cur ≠ c := hst val cur hg
    simp [hg, hne]

theorem applyLightColor_stale (s : AppModel) (k : String) (c : ℕ)
    (hst : staleFor s.pending_light_color k c) :
    update s (.ApplyLightColor k c) = (s, []) := by
  simp only [update]
  cases hg : hmGet s.pending_light_color k with
  | none => simp [hg]
  | some p =>
    obtain ⟨val, cur⟩ := p
    have hne : cur ≠ c := hst val cur hg
    simp [hg, hne]

theorem applyGroupColor_stale (s : AppModel) (k : String) (c : ℕ)
    (hst : staleFor s.pending_group_color k c) :
    update s (.ApplyGroupColor k c) = (s, []) := by
  simp only [update]
  cases hg : hmGet s.pending_group_color k with
  | none => simp [hg]
  | some p =>
    obtain ⟨val, cur⟩ := p
    have hne : cur ≠ c := hst val cur hg
    simp [hg, hne]

/-- C2: a delayed commit event whose key has no pending entry, or whose
carried counter differs from the stored one, is a complete no-op for all
four attribute classes: no push or any other effect is issued and the
state (view models and all pending-edit maps) is unchanged; consequently
the "at most one Pending Edit per key" invariant holds after the event
whenever it held before. -/
theorem c2_stale_commit_is_noop (s : AppModel) (k : String) (c : ℕ) :
    (staleFor s.pending_light_brightness k c →
      update s (.ApplyLightBrightness k c) = (s, [])) ∧
    (staleFor s.pending_group_brightness k c →
      update s (.ApplyGroupBrightness k c) = (s, [])) ∧
    (staleFor s.pending_light_color k c →
      update s (.ApplyLightColor k c) = (s, [])) ∧
    (staleFor s.pending_group_color k c →
      update s (.ApplyGroupColor k c) = (s, [])) ∧
    (pendingKeysNodup s → staleFor s.pending_light_brightness k c →
      pendingKeysNodup (update s (.ApplyLightBrightness k c)).1) ∧
    (pendingKeysNodup s → staleFor s.pending_group_brightness k c →
      pendingKeysNodup (update s (.ApplyGroupBrightness k c)).1) ∧
    (pendingKeysNodup s → staleFor s.pending_light_color k c →
      pendingKeysNodup (update s (.ApplyLightColor k c)).1) ∧
    (pendingKeysNodup s → staleFor s.pending_group_color k c →
      pendingKeysNodup (update s (.ApplyGroupColor k c)).1) := by
  refine ⟨applyLightBrightness_stale s k c, applyGroupBrightness_stale s k c,
    applyLightColor_stale s k c, applyGroupColor_stale s k c, ?_, ?_, ?_, ?_⟩
  · intro hnd hst
    rw [applyLightBrightness_stale s k c hst]
    exact hnd
  · intro hnd hst
    rw [applyGroupBrightness_stale s k c hst]
    exact hnd
  · intro hnd hst
    rw [applyLightColor_stale s k c hst]
    exact hnd
  · intro hnd hst
    rw [applyGroupColor_stale s k c hst]
    exact hnd

/-- C2 witness: at the initial state no key holds a pending edit, so a
commit event carrying any counter is stale and leaves everything
unchanged. -/
theorem c2_stale_commit_is_noop_witness :
    update (emptyModel cfgFull) (.ApplyLightBrightness "l1" 5) = (emptyModel cfgFull, []) ∧
    update (emptyModel cfgFull) (.ApplyGroupBrightness "g1" 5) = (emptyModel cfgFull, []) ∧
    update (emptyModel cfgFull) (.ApplyLightColor "l1" 5) = (emptyModel cfgFull, []) ∧
    update (emptyModel cfgFull) (.ApplyGroupColor "g1" 5) = (emptyModel cfgFull, []) := by
  have hl := c2_stale_commit_is_noop (emptyModel cfgFull) "l1" 5
  have hg := c2_stale_commit_is_noop (emptyModel cfgFull) "g1" 5
  have hst1 : staleFor (emptyModel cfgFull).pending_light_brightness "l1" 5 := by
    intro v cur h
    simp [emptyModel, hmGet] at h
  have hst2 : staleFor (emptyModel cfgFull).pending_group_brightness "g1" 5 := by
    intro v cur h
    simp [emptyModel, hmGet] at h
  have hst3 : staleFor (emptyModel cfgFull).pending_light_color "l1" 5 := by
    intro v cur h
    simp [emptyModel, hmGet] at h
  have hst4 : staleFor (emptyModel cfgFull).pending_group_color "g1" 5 := by
    intro v cur h
    simp [emptyModel, hmGet] at h
  exact ⟨hl.1 hst1, hg.2.1 hst2, hl.2.2.1 hst3, hg.2.2.2.1 hst4⟩

/-- C7: when the bridge address or the access token is absent, every
operation that would need a remote push or fetch — toggles, delayed
commit fires, loads and scene activation — returns no task at all
(`Task::none()`), so no remote operation is attempted and the caller
receives an immediate no-op. -/
theorem c7_no_bridge_means_no_remote_op (s : AppModel)
    (h : s.config.bridge_ip = none ∨ s.config.username = none) :
    (∀ id b, (update s (.ToggleLight id b)).2 = []) ∧
    (∀ id b, (update s (.ToggleGroup id b)).2 = []) ∧
    (update s .LoadLights).2 = [] ∧
    (update s .LoadGroups).2 = [] ∧
    (update s .LoadScenes).2 = [] ∧
    (∀ sid, (update s (.ActivateScene sid)).2 = []) ∧
    (∀ id c, (update s (.ApplyLightBrightness id c)).2 = []) ∧
    (∀ id c, (update s (.ApplyGroupBrightness id c)).2 = []) ∧
    (∀ id c, (update s (.ApplyLightColor id c)).2 = []) ∧
    (∀ id c, (update s (.ApplyGroupColor id c)).2 = []) := by
  have hb : get_bridge s.config = none := (get_bridge_eq_none_iff s.config).mpr h
  refine ⟨?_, ?_, ?_, ?_, ?_, ?_, ?_, ?_, ?_, ?_⟩
  · intro id b
    simp [update, hb]
  · intro id b
    cases hf : s.groups.find? (fun (group : GroupVm) => group.id == id) <;>
      simp [update, hf, hb]
  · simp [update, hb]
  · simp [update, hb]
  · simp [update, hb]
  · intro sid
    cases hf : s.scenes.find? (fun (scene : SceneVm) => scene.id == sid) <;>
      simp [update, hf, hb]
  · intro id c
    cases hg : hmGet s.pending_light_brightness id with
    | none => simp [update, hg]
    | some p =>
      obtain ⟨val, cur⟩ := p
      by_cases hc : cur = c <;> simp [update, hg, hc, hb]
  · intro id c
    cases hg : hmGet s.pending_group_brightness id with
    | none => simp [update, hg]
    | some p =>
      obtain ⟨val, cur⟩ := p
      by_cases hc : cur = c <;> simp [update, hg, hc, hb]
  · intro id c
    cases hg : hmGet s.pending_light_color id with
    | none => simp [update, hg]
    | some p =>
      obtain ⟨val, cur⟩ := p
      by_cases hc : cur = c <;> simp [update, hg, hc, hb]
  · intro id c
    cases hg : hmGet s.pending_group_color id with
    | none => simp [update, hg]
    | some p =>
      obtain ⟨val, cur⟩ := p
      by_cases hc : cur = c <;> simp [update, hg, hc, hb]

/-- C7 witness: with the access token absent, concrete toggle, load,
scene-activation and commit events all return no task. -/
theorem c7_no_bridge_means_no_remote_op_witness :
    (update (emptyModel cfgNoUser) (.ToggleLight "l1" true)).2 = [] ∧
    (update (emptyModel cfgNoUser) (.ToggleGroup "g1" true)).2 = [] ∧
    (update (emptyModel cfgNoUser) .LoadLights).2 = [] ∧
    (update (emptyModel cfgNoUser) (.ActivateScene "s1")).2 = [] ∧
    (update (emptyModel cfgNoUser) (.ApplyLightBrightness "l1" 1)).2 = [] := by
  have h := c7_no_bridge_means_no_remote_op (emptyModel cfgNoUser) (Or.inr rfl)
  exact ⟨h.1 "l1" true, h.2.1 "g1" true, h.2.2.1, h.2.2.2.2.2.1 "s1",
    h.2.2.2.2.2.2.1 "l1" 1⟩

/-! ## Claim theorems: scene activation and group-list replacement -/

/-- C3 counterexample: activating scene `"s1"` issues the single push for
its target group `"g1"`, but when that push comes back failed
(`SceneActivated(Err ..)`) the handler returns no task at all — no
refresh fetch is ever scheduled, contradicting the claim that two
refresh fetches are scheduled "regardless of whether the push succeeded
or failed". -/
theorem c3_failed_push_schedules_no_refresh_cex :
    (update c3State (.ActivateScene "s1")).2 =
      [.pushGroupState "g1" { scene := some "s1" }] ∧
    (update c3State (.SceneActivated (.error "boom"))).2 = [] := by
  constructor <;> rfl

/-- C3 (amended): for a scene activation whose scene id resolves in the
View Model Store and with a bridge configured, exactly one push is
issued, for the scene's target group; the two convergence refresh
fetches (groups, then lights), each delayed by 10 seconds (10000 ms),
are scheduled only when the push result reports success — a failed push
schedules nothing. -/
theorem c3_scene_activation_push_and_refresh (s : AppModel) (scene_id : String)
    (scene : SceneVm) (b : Bridge)
    (hfind : s.scenes.find? (fun (sc : SceneVm) => sc.id == scene_id) = some scene)
    (hb : get_bridge s.config = some b) :
    update s (.ActivateScene scene_id) =
      (s, [.pushGroupState scene.group { scene := some scene_id }]) ∧
    (∀ r, update s (.SceneActivated (.ok r)) =
      (s, [.emit (.ResponsesModified (.ok ())),
           .sleepThen 10000 .LoadGroups,
           .sleepThen 10000 .LoadLights])) ∧
    (∀ e, update s (.SceneActivated (.error e)) = (s, [])) := by
  refine ⟨?_, fun r => rfl, fun e => rfl⟩
  simp [update, hfind, hb]

/-- C3 witness: the amended scene-activation behaviour at the concrete
one-scene state. -/
theorem c3_scene_activation_push_and_refresh_witness :
    update c3State (.ActivateScene "s1") =
      (c3State, [.pushGroupState "g1" { scene := some "s1" }]) ∧
    update c3State (.SceneActivated (.ok ())) =
      (c3State, [.emit (.ResponsesModified (.ok ())),
                 .sleepThen 10000 .LoadGroups,
                 .sleepThen 10000 .LoadLights]) ∧
    update c3State (.SceneActivated (.error "boom")) = (c3State, []) := by
  have h := c3_scene_activation_push_and_refresh c3State "s1"
    { id := "s1", name := "Scene", group := "g1" }
    { ip := "192.168.1.2", username := "token" } rfl rfl
  exact ⟨h.1, h.2.1 (), h.2.2 "boom"⟩

/-- C4 counterexample: the only member light of the fetched group is on
(`some true`), yet after the group-list replacement the group's
view-model on-state is `none` — it is *not* recomputed as the logical OR
of the member lights' on-states (which would be `some true`); the code
simply copies `group.state.map(any_on)`, which is absent here. -/
theorem c4_group_on_state_not_recomputed_cex :
    c4State.lights.map (fun l => (l.id, l.isOn)) = [("l1", some true)] ∧
    ((update c4State (.GroupsLoaded (.ok [c4Fetched]))).1.groups.map
      (fun g => (g.id, g.isOn))) = [("g1", (none : Option Bool))] := by
  constructor
  · rfl
  · rw [show (update c4State (.GroupsLoaded (.ok [c4Fetched]))).1.groups =
        sortByNameCI GroupVm.name [groupVmOfFetched c4State.lights c4Fetched] from rfl,
      sortByNameCI_singleton]
    rfl

/-- C4 (amended): when a group list replacement is processed, each
fetched group's view-model on-state is the fetched `state.any_on` flag;
in particular, when the fetch carries no explicit state the on-state is
unknown (`none`) — it is not recomputed from the member lights. -/
theorem c4_group_on_state_mirrors_fetch (s : AppModel) (gs : List FetchedGroup)
    (g : FetchedGroup) (hg : g ∈ gs) :
    ∃ vm, vm ∈ (update s (.GroupsLoaded (.ok gs))).1.groups ∧
      vm.id = g.id ∧ vm.lights = g.lights ∧
      vm.isOn = g.state.map (fun st => st.any_on) ∧
      (g.state = none → vm.isOn = none) := by
  refine ⟨groupVmOfFetched s.lights g, ?_, rfl, rfl, rfl, fun h => ?_⟩
  · have he : (update s (.GroupsLoaded (.ok gs))).1.groups =
        sortByNameCI GroupVm.name (gs.map (groupVmOfFetched s.lights)) := rfl
    rw [he, mem_sortByNameCI]
    exact List.mem_map_of_mem _ hg
  · simp [groupVmOfFetched, h]

/-- C4 witness: the amended replacement rule at the concrete state: the
fetched group with no explicit state produces an unknown on-state. -/
theorem c4_group_on_state_mirrors_fetch_witness :
    ∃ vm, vm ∈ (update c4State (.GroupsLoaded (.ok [c4Fetched]))).1.groups ∧
      vm.id = c4Fetched.id ∧ vm.lights = c4Fetched.lights ∧
      vm.isOn = c4Fetched.state.map (fun st => st.any_on) ∧
      (c4Fetched.state = none → vm.isOn = none) :=
  c4_group_on_state_mirrors_fetch c4State [c4Fetched] c4Fetched (by simp)

/-! ## Claim theorems: edits addressed to missing resource ids -/

/-- C5 counterexample: submitting a brightness edit for the unknown id
`"ghost"` at the freshly initialized state is *not* a no-op: the edit
consumes generation counter 1, records a pending edit under `"ghost"`,
schedules a delayed commit, and when that commit fires unsuperseded it
pushes a brightness override for `"ghost"` to the remote client. -/
theorem c5_missing_id_brightness_edit_not_noop_cex :
    (run (emptyModel cfgFull)
        [.SetLightBrightness "ghost" 100, .ApplyLightBrightness "ghost" 1]).2 =
      [.sleepThen 300 (.ApplyLightBrightness "ghost" 1),
       .pushLightState "ghost" { brightness := some (rustAsU8 100) }] ∧
    rustAsU8 (100 : ℚ) = 100 ∧
    (update (emptyModel cfgFull) (.SetLightBrightness "ghost" 100)).1.debounce_counter = 1 ∧
    hmGet (update (emptyModel cfgFull)
        (.SetLightBrightness "ghost" 100)).1.pending_light_brightness "ghost" =
      some (100, 1) := by
  refine ⟨rfl, ?_, rfl, rfl⟩
  norm_num [rustAsU8, ratTrunc]
  rfl

/-- C5 (amended): a colour edit whose addressed resource id is not in
the View Model Store is a complete no-op (state unchanged, no task).  A
brightness edit whose resource id is not in the store leaves every
view-model field unchanged, but still consumes the next generation
counter value, records a pending edit under the missing id, and
schedules a delayed commit carrying it. -/
theorem c5_missing_id_edit_behaviour (s : AppModel) :
    (∀ lid v, s.lights.find? (fun (l : LightVm) => l.id == lid) = none →
      (update s (.SetLightBrightness lid v)).1.lights = s.lights ∧
      (update s (.SetLightBrightness lid v)).1.debounce_counter =
        s.debounce_counter + 1 ∧
      hmGet (update s (.SetLightBrightness lid v)).1.pending_light_brightness lid =
        some (v, s.debounce_counter + 1) ∧
      (update s (.SetLightBrightness lid v)).2 =
        [.sleepThen 300 (.ApplyLightBrightness lid (s.debounce_counter + 1))]) ∧
    (∀ gid v, s.groups.find? (fun (g : GroupVm) => g.id == gid) = none →
      (update s (.SetGroupBrightness gid v)).1.lights = s.lights ∧
      (update s (.SetGroupBrightness gid v)).1.groups = s.groups ∧
      (update s (.SetGroupBrightness gid v)).1.debounce_counter =
        s.debounce_counter + 1 ∧
      hmGet (update s (.SetGroupBrightness gid v)).1.pending_group_brightness gid =
        some (v, s.debounce_counter + 1) ∧
      (update s (.SetGroupBrightness gid v)).2 =
        [.sleepThen 300 (.ApplyGroupBrightness gid (s.debounce_counter + 1))]) ∧
    (∀ u, s.lights.find? (fun (l : LightVm) =>
        some l.id == s.active_color_picker_item.map (fun p => p.1)) = none →
      update s (.SetLightColor u) = (s, [])) ∧
    (∀ u, s.groups.find? (fun (g : GroupVm) =>
        some g.id == s.active_color_picker_item.map (fun p => p.1)) = none →
      update s (.SetGroupColor u) = (s, [])) := by
  refine ⟨?_, ?_, ?_, ?_⟩
  · intro lid v h
    have hup := updateFirst_of_find?_eq_none (fun (l : LightVm) => l.id == lid)
      (fun light => { light with brightness := some (rustAsU8 v) }) s.lights h
    refine ⟨?_, rfl, ?_, rfl⟩
    · simp [update, hup]
    · simp [update, hmGet_hmInsert_self]
  · intro gid v h
    refine ⟨?_, ?_, ?_, ?_, ?_⟩ <;> simp [update, h, hmGet_hmInsert_self]
  · intro u h
    simp [update, h]
  · intro u h
    simp [update, h]

/-- C5 witness: the amended behaviour at the freshly initialized state,
which contains no resources at all. -/
theorem c5_missing_id_edit_behaviour_witness :
    (update (emptyModel cfgFull) (.SetLightBrightness "ghost" 100)).1.lights = [] ∧
    (update (emptyModel cfgFull) (.SetLightBrightness "ghost" 100)).1.debounce_counter = 1 ∧
    (update (emptyModel cfgFull) (.SetLightBrightness "ghost" 100)).2 =
      [.sleepThen 300 (.ApplyLightBrightness "ghost" 1)] ∧
    update (emptyModel cfgFull) (.SetLightColor .Other) = (emptyModel cfgFull, []) ∧
    update (emptyModel cfgFull) (.SetGroupColor .Other) = (emptyModel cfgFull, []) := by
  have h := c5_missing_id_edit_behaviour (emptyModel cfgFull)
  have h1 := h.1 "ghost" 100 rfl
  exact ⟨h1.1, h1.2.1, h1.2.2.2, h.2.2.1 .Other rfl, h.2.2.2 .Other rfl⟩

/-! ## Claim theorems: groups with no resolvable first member -/

/-- C9: a fetched group whose first member cannot be resolved (in
particular one with an empty member list) is displayed after the group
list replacement with unknown brightness (`none`) and colour `(0,0,0)`;
and toggling or editing a group whose member list is empty is
well-defined and touches no light: the embedded handlers are total
functions (the Rust code indexes nothing out of bounds: member
resolution uses `first()`/`find` and the fan-out loops run over the
empty member list), the light list is returned unchanged, and the
brightness edit still schedules its delayed commit. -/
theorem c9_unresolvable_first_member_group (s : AppModel)
    (gs : List FetchedGroup) (g : FetchedGroup) (hg : g ∈ gs)
    (hfm : firstMemberLight s.lights g.lights = none) :
    (∃ vm, vm ∈ (update s (.GroupsLoaded (.ok gs))).1.groups ∧
      vm.id = g.id ∧ vm.brightness = none ∧ vm.color = some (0, 0, 0)) ∧
    (∀ (s2 : AppModel) (gid : String) (gvm : GroupVm) (b : Bool),
      s2.groups.find? (fun (g2 : GroupVm) => g2.id == gid) = some gvm →
      gvm.lights = [] →
      (update s2 (.ToggleGroup gid b)).1.lights = s2.lights) ∧
    (∀ (s2 : AppModel) (gid : String) (gvm : GroupVm) (v : ℚ),
      s2.groups.find? (fun (g2 : GroupVm) => g2.id == gid) = some gvm →
      gvm.lights = [] →
      (update s2 (.SetGroupBrightness gid v)).1.lights = s2.lights ∧
      (update s2 (.SetGroupBrightness gid v)).2 =
        [.sleepThen 300 (.ApplyGroupBrightness gid (s2.debounce_counter + 1))]) ∧
    (∀ (s2 : AppModel) (gvm : GroupVm) (hsv : Hsv),
      s2.groups.find? (fun (g2 : GroupVm) =>
        some g2.id == s2.active_color_picker_item.map (fun p => p.1)) = some gvm →
      gvm.lights = [] →
      (update s2 (.SetGroupColor (.ActiveColor hsv))).1.lights = s2.lights) := by
  refine ⟨?_, ?_, ?_, ?_⟩
  · refine ⟨groupVmOfFetched s.lights g, ?_, rfl, ?_, ?_⟩
    · have he : (update s (.GroupsLoaded (.ok gs))).1.groups =
          sortByNameCI GroupVm.name (gs.map (groupVmOfFetched s.lights)) := rfl
      rw [he, mem_sortByNameCI]
      exact List.mem_map_of_mem _ hg
    · simp [groupVmOfFetched, hfm]
    · simp [groupVmOfFetched, hfm]
  · intro s2 gid gvm b hfind hempty
    cases hb : get_bridge s2.config <;>
      simp [update, hfind, hb, hempty, setLightsOn]
  · intro s2 gid gvm v hfind hempty
    by_cases hbs : gvm.brightness.isSome <;>
      constructor <;>
        simp [update, hfind, hbs, hempty, setLightsBrightness]
  · intro s2 gvm hsv hfind hempty
    simp [update, hfind, hempty, setLightsColor]

/-- C9 witness: the member-less fetched group produces unknown
brightness and black colour, and concrete toggle and edit events on the
member-less group leave the light list untouched. -/
theorem c9_unresolvable_first_member_group_witness :
    (∃ vm, vm ∈ (update (emptyModel cfgFull)
        (.GroupsLoaded (.ok [{ id := "g0", name := "Empty", state := none,
                               lights := [] }]))).1.groups ∧
      vm.id = "g0" ∧ vm.brightness = none ∧ vm.color = some (0, 0, 0)) ∧
    (update c9State (.ToggleGroup "g0" true)).1.lights = c9State.lights ∧
    (update c9State (.SetGroupBrightness "g0" 100)).1.lights = c9State.lights ∧
    (update c9State (.SetGroupColor
        (.ActiveColor { hue := 0, saturation := 0, value := 0 }))).1.lights =
      c9State.lights := by
  have h := c9_unresolvable_first_member_group (emptyModel cfgFull)
    [{ id := "g0", name := "Empty", state := none, lights := [] }]
    { id := "g0", name := "Empty", state := none, lights := [] }
    (by simp) rfl
  exact ⟨h.1, h.2.1 c9State "g0" c9GroupVm true rfl rfl,
    (h.2.2.1 c9State "g0" c9GroupVm 100 rfl rfl).1,
    h.2.2.2 c9State c9GroupVm { hue := 0, saturation := 0, value := 0 } rfl rfl⟩

/-! ## Claim theorems: group edit fan-out -/

theorem updateFirst_key_eq_map {α : Type} (key : α → String) (k : String)
    (f : α → α) (l : List α) (hnd : (l.map key).Nodup) :
    updateFirst (fun x => key x == k) f l =
      l.map (fun x => if key x == k then f x else x) := by
  induction l with
  | nil => rfl
  | cons a l ih =>
    rw [List.map_cons, List.nodup_cons] at hnd
    obtain ⟨ha, hl⟩ := hnd
    by_cases hak : (key a == k) = true
    · have hak2 : key a = k := by simpa using hak
      simp only [updateFirst, hak, if_true, List.map_cons]
      have hrest : List.map (fun x => if key x == k then f x else x) l = l := by
        have hpt : ∀ x ∈ l, (if key x == k then f x else x) = x := by
          intro x hx
          have hne : key x ≠ k := by
            intro he
            have hmem : key a ∈ List.map key l := by
              rw [hak2, ← he]
              exact List.mem_map_of_mem key hx
            exact ha hmem
          simp [hne]
        calc List.map (fun x => if key x == k then f x else x) l
            = List.map id l := List.map_congr_left hpt
          _ = l := List.map_id l
      rw [hrest]
    · have hak2 : (key a == k) = false := by
        simpa using hak
      simp only [updateFirst, hak2, List.map_cons, if_false, Bool.false_eq_true]
      rw [ih hl]

theorem foldl_updateFirst_eq_map {α : Type} (key : α → String) (f : α → α)
    (hkey : ∀ x, key (f x) = key x) (hidem : ∀ x, f (f x) = f x)
    (ids : List String) (l : List α) (hnd : (l.map key).Nodup) :
    ids.foldl (fun acc lid => updateFirst (fun x => key x == lid) f acc) l =
      l.map (fun x => if key x ∈ ids then f x else x) := by
  induction ids generalizing l with
  | nil => simp
  | cons lid ids ih =>
    rw [List.foldl_cons, updateFirst_key_eq_map key lid f l hnd]
    have hnd2 : ((l.map (fun x => if key x == lid then f x else x)).map key).Nodup := by
      rw [List.map_map]
      have hcomp : (key ∘ fun x => if key x == lid then f x else x) = key := by
        funext x
        by_cases h : (key x == lid) = true <;> simp [Function.comp, h, hkey]
      rw [hcomp]
      exact hnd
    rw [ih _ hnd2, List.map_map]
    apply List.map_congr_left
    intro x hx
    by_cases h : (key x == lid) = true
    · have he : key x = lid := by simpa using h
      simp only [Function.comp, h, if_true]
      by_cases h2 : key x ∈ ids
      · have h3 : key (f x) ∈ ids := by rw [hkey]; exact h2
        simp [h3, hidem, List.mem_cons, he]
      · have h3 : ¬ key (f x) ∈ ids := by rw [hkey]; exact h2
        simp [h3, List.mem_cons, he]
    · have hne : key x ≠ lid := by simpa using h
      simp only [Function.comp, h, if_false, Bool.false_eq_true]
      by_cases h2 : key x ∈ ids
      · simp [h2, List.mem_cons]
      · simp [h2, List.mem_cons, hne]

theorem setLightsBrightness_eq_map (ids : List String) (b : ℕ)
    (lights : List LightVm) (hnd : (lights.map LightVm.id).Nodup) :
    setLightsBrightness ids b lights =
      lights.map (fun l =>
        if l.id ∈ ids then { l with brightness := some b } else l) := by
  unfold setLightsBrightness
  exact foldl_updateFirst_eq_map LightVm.id
    (fun l => { l with brightness := some b }) (fun l => rfl) (fun l => rfl)
    ids lights hnd

theorem setLightsColor_eq_map (ids : List String) (rgb : ℚ × ℚ × ℚ)
    (lights : List LightVm) (hnd : (lights.map LightVm.id).Nodup) :
    setLightsColor ids rgb lights =
      lights.map (fun l =>
        if l.id ∈ ids then { l with color := some rgb } else l) := by
  unfold setLightsColor
  exact foldl_updateFirst_eq_map LightVm.id
    (fun l => { l with color := some rgb }) (fun l => rfl) (fun l => rfl)
    ids lights hnd

/-- C6 counterexample: a brightness edit on a group that is present in
the View Model Store but whose displayed brightness is unknown leaves
both the group's displayed brightness and the member light's displayed
brightness unchanged (the handler guards the whole optimistic update
with `group.brightness.is_some()`), contradicting the claim that the
submitted value immediately overwrites the group's value and fans out
to every member light. -/
theorem c6_unknown_brightness_no_fanout_cex :
    (update c6State (.SetGroupBrightness "g1" 100)).1.groups.map
      (fun g => (g.id, g.brightness)) = [("g1", (none : Option ℕ))] ∧
    (update c6State (.SetGroupBrightness "g1" 100)).1.lights.map
      (fun l => (l.id, l.brightness)) = [("l1", some 5)] := by
  constructor <;> rfl

/-- C6 (amended): for a group-brightness edit on a group present in the
View Model Store *whose displayed brightness is known*, the submitted
value immediately (before any network activity) overwrites the group's
displayed brightness and is fanned out to the displayed brightness of
every member light present in the store; a group-colour edit (addressed
through the active colour-picker selection) overwrites the group's
displayed colour and fans it out to every member light unconditionally.
If the group's displayed brightness is unknown, the brightness edit
leaves the view models untouched. -/
theorem c6_group_edit_overwrites_and_fans_out (s : AppModel) (gid : String)
    (gvm : GroupVm)
    (hndL : (s.lights.map LightVm.id).Nodup)
    (hndG : (s.groups.map GroupVm.id).Nodup)
    (hfind : s.groups.find? (fun (g : GroupVm) => g.id == gid) = some gvm) :
    (∀ (v : ℚ) (b0 : ℕ), gvm.brightness = some b0 →
      (∀ l2, l2 ∈ (update s (.SetGroupBrightness gid v)).1.lights →
        l2.id ∈ gvm.lights → l2.brightness = some (rustAsU8 v)) ∧
      (∀ g2, g2 ∈ (update s (.SetGroupBrightness gid v)).1.groups →
        g2.id = gid → g2.brightness = some (rustAsU8 v))) ∧
    (∀ (v : ℚ), gvm.brightness = none →
      (update s (.SetGroupBrightness gid v)).1.lights = s.lights ∧
      (update s (.SetGroupBrightness gid v)).1.groups = s.groups) ∧
    (∀ (hsv : Hsv),
      s.active_color_picker_item.map (fun p => p.1) = some gid →
      (∀ l2, l2 ∈ (update s (.SetGroupColor (.ActiveColor hsv))).1.lights →
        l2.id ∈ gvm.lights → l2.color = some (hsv_palette_to_rgb hsv)) ∧
      (∀ g2, g2 ∈ (update s (.SetGroupColor (.ActiveColor hsv))).1.groups →
        g2.id = gid → g2.color = some (hsv_palette_to_rgb hsv))) := by
  refine ⟨?_, ?_, ?_⟩
  · intro v b0 hb0
    have hbs : gvm.brightness.isSome = true := by rw [hb0]; rfl
    have hlights : (update s (.SetGroupBrightness gid v)).1.lights =
        setLightsBrightness gvm.lights (rustAsU8 v) s.lights := by
      simp [update, hfind, hbs]
    have hgroups : (update s (.SetGroupBrightness gid v)).1.groups =
        updateFirst (fun (g : GroupVm) => g.id == gid)
          (fun g => { g with brightness := some (rustAsU8 v) }) s.groups := by
      simp [update, hfind, hbs]
    constructor
    · intro l2 hl2 hml2
      rw [hlights, setLightsBrightness_eq_map _ _ _ hndL] at hl2
      obtain ⟨l, hl, rfl⟩ := List.mem_map.mp hl2
      by_cases hin : l.id ∈ gvm.lights
      · simp [hin]
      · rw [if_neg hin] at hml2
        exact absurd hml2 hin
    · intro g2 hg2 hid2
      rw [hgroups, updateFirst_key_eq_map GroupVm.id gid _ _ hndG] at hg2
      obtain ⟨g0, hg0, rfl⟩ := List.mem_map.mp hg2
      by_cases hid : (g0.id == gid) = true
      · simp [hid]
      · rw [if_neg (by simp [hid])] at hid2
        exact absurd hid2 (by simpa using hid)
  · intro v hbn
    have hbs : gvm.brightness.isSome = false := by rw [hbn]; rfl
    constructor <;> simp [update, hfind, hbs]
  · intro hsv hact
    have hpred : (fun (g : GroupVm) =>
        some g.id == s.active_color_picker_item.map (fun p => p.1)) =
        (fun (g : GroupVm) => g.id == gid) := by
      funext g
      rw [hact]
      rfl
    have hfind2 : s.groups.find? (fun (g : GroupVm) =>
        some g.id == s.active_color_picker_item.map (fun p => p.1)) = some gvm := by
      rw [hpred]
      exact hfind
    have hlights : (update s (.SetGroupColor (.ActiveColor hsv))).1.lights =
        setLightsColor gvm.lights (hsv_palette_to_rgb hsv) s.lights := by
      simp [update, hfind2]
    have hgroups : (update s (.SetGroupColor (.ActiveColor hsv))).1.groups =
        updateFirst (fun (g : GroupVm) =>
          some g.id == s.active_color_picker_item.map (fun p => p.1))
          (fun g => { g with color := some (hsv_palette_to_rgb hsv) }) s.groups := by
      simp [update, hfind2]
    rw [hpred] at hgroups
    constructor
    · intro l2 hl2 hml2
      rw [hlights, setLightsColor_eq_map _ _ _ hndL] at hl2
      obtain ⟨l, hl, rfl⟩ := List.mem_map.mp hl2
      by_cases hin : l.id ∈ gvm.lights
      · simp [hin]
      · rw [if_neg hin] at hml2
        exact absurd hml2 hin
    · intro g2 hg2 hid2
      rw [hgroups, updateFirst_key_eq_map GroupVm.id gid _ _ hndG] at hg2
      obtain ⟨g0, hg0, rfl⟩ := List.mem_map.mp hg2
      by_cases hid : (g0.id == gid) = true
      · simp [hid]
      · rw [if_neg (by simp [hid])] at hid2
        exact absurd hid2 (by simpa using hid)

/-- C6 witness: the amended fan-out behaviour at a concrete state whose
group has a known brightness. -/
theorem c6_group_edit_overwrites_and_fans_out_witness :
    (∀ l2, l2 ∈ (update c6OkState (.SetGroupBrightness "g1" 100)).1.lights →
      l2.id ∈ c6OkGroup.lights → l2.brightness = some (rustAsU8 100)) ∧
    (∀ g2, g2 ∈ (update c6OkState (.SetGroupBrightness "g1" 100)).1.groups →
      g2.id = "g1" → g2.brightness = some (rustAsU8 100)) ∧
    (∀ l2, l2 ∈ (update c6OkState (.SetGroupColor
        (.ActiveColor { hue := 0, saturation := 1, value := 1 }))).1.lights →
      l2.id ∈ c6OkGroup.lights →
      l2.color = some (hsv_palette_to_rgb { hue := 0, saturation := 1, value := 1 })) := by
  have h := c6_group_edit_overwrites_and_fans_out c6OkState "g1" c6OkGroup
    (by simp [c6OkState, emptyModel, c6Light]) (by simp [c6OkState, emptyModel, c6OkGroup]) rfl
  have hb := h.1 100 7 rfl
  have hc := h.2.2 { hue := 0, saturation := 1, value := 1 } rfl
  exact ⟨hb.1, hb.2, hc.1⟩

/-! ## Claim theorems: the debounce invariant -/

theorem run_cons (s : AppModel) (m : Msg) (ms : List Msg) :
    run s (m :: ms) =
      ((run (update s m).1 ms).1, (update s m).2 ++ (run (update s m).1 ms).2) := rfl

theorem update_setLightBrightness (s : AppModel) (k : String) (val : ℚ) :
    update s (.SetLightBrightness k val) =
      ({ s with
          lights := updateFirst (fun (light : LightVm) => light.id == k)
            (fun light => { light with brightness := some (rustAsU8 val) })
            s.lights
          debounce_counter := s.debounce_counter + 1
          pending_light_brightness :=
            hmInsert s.pending_light_brightness k (val, s.debounce_counter + 1) },
       [.sleepThen 300 (.ApplyLightBrightness k (s.debounce_counter + 1))]) := rfl

theorem c1_aux (k : String) (v : ℕ → ℚ) (c0 N : ℕ) :
    ∀ (tr : List TEv) (j : ℕ) (F : List ℕ), RapidTrace N j F tr →
    ∀ s : AppModel, C1Inv k v c0 N j F s →
    (∀ e ∈ (run s (tr.map (toMsgC1 k v c0))).2, isPush e = true →
        e = .pushLightState k { brightness := some (rustAsU8 (v N)) }) ∧
    ((run s (tr.map (toMsgC1 k v c0))).2.filter isPush).length ≤
      (if N ∈ F then 0 else 1) := by
  intro tr j F htr
  induction htr with
  | nil j F =>
    intro s hinv
    constructor
    · intro e he
      simp [run] at he
    · simp [run]
  | set j F tr hj htr ih =>
    intro s hinv
    obtain ⟨hjN, hcnt, hNF, hpend⟩ := hinv
    have hNnotF : N ∉ F := by
      intro hN
      have := hNF hN
      omega
    have hmsg : toMsgC1 k v c0 (TEv.eset (j + 1)) =
        .SetLightBrightness k (v (j + 1)) := rfl
    have hinv2 : C1Inv k v c0 N (j + 1) F
        ({ s with
            lights := updateFirst (fun (light : LightVm) => light.id == k)
              (fun light => { light with brightness := some (rustAsU8 (v (j + 1))) })
              s.lights
            debounce_counter := s.debounce_counter + 1
            pending_light_brightness :=
              hmInsert s.pending_light_brightness k
                (v (j + 1), s.debounce_counter + 1) }) := by
      refine ⟨by omega, ?_, fun hN => absurd hN hNnotF, ?_⟩
      · show s.debounce_counter + 1 = c0 + (j + 1)
        omega
      · show hmGet (hmInsert s.pending_light_brightness k
            (v (j + 1), s.debounce_counter + 1)) k = _
        rw [hmGet_hmInsert_self, hcnt]
        rw [if_neg (by simp [hNnotF])]
        rfl
    have IH := ih _ hinv2
    simp only [List.map_cons, hmsg, run_cons, update_setLightBrightness] at IH ⊢
    constructor
    · intro e he hp
      rcases List.mem_append.mp he with h1 | h2
      · rw [List.mem_singleton] at h1
        rw [h1] at hp
        simp [isPush] at hp
      · exact IH.1 e h2 hp
    · rw [List.filter_append, List.length_append]
      have h0 : (List.filter isPush
          [Eff.sleepThen 300 (.ApplyLightBrightness k (s.debounce_counter + 1))]).length
          = 0 := rfl
      rw [h0]
      simpa using IH.2
  | fire j F tr i h1 hiN hmin hniF htr ih =>
    intro s hinv
    obtain ⟨hjN, hcnt, hNF, hpend⟩ := hinv
    have hmsg : toMsgC1 k v c0 (TEv.efire i) =
        .ApplyLightBrightness k (c0 + i) := rfl
    by_cases hcond : j = 0 ∨ N ∈ F
    · -- the key holds no pending entry: this fire is a no-op
      have hnone : hmGet s.pending_light_brightness k = none := by
        rw [hpend, if_pos hcond]
      have hupd : update s (.ApplyLightBrightness k (c0 + i)) = (s, []) := by
        simp [update, hnone]
      have hNF2 : N ∈ i :: F → N ≤ j := by
        intro hN
        rcases List.mem_cons.mp hN with hNi | hNF0
        · subst hNi
          omega
        · exact hNF hNF0
      have hinv2 : C1Inv k v c0 N j (i :: F) s := by
        refine ⟨hjN, hcnt, hNF2, ?_⟩
        rw [hpend, if_pos hcond, if_pos ?_]
        rcases hcond with h | h
        · exact Or.inl h
        · exact Or.inr (List.mem_cons_of_mem _ h)
      have IH := ih _ hinv2
      simp only [List.map_cons, hmsg, run_cons, hupd, List.nil_append] at IH ⊢
      refine ⟨IH.1, ?_⟩
      by_cases hNmem : N ∈ F
      · have hNmem2 : N ∈ i :: F := List.mem_cons_of_mem _ hNmem
        rw [if_pos hNmem]
        rw [if_pos hNmem2] at IH
        exact IH.2
      · rw [if_neg hNmem]
        rcases le_or_lt ((List.filter isPush ((run s (tr.map (toMsgC1 k v c0))).2)).length) 1 with h | h
        · exact h
        · exfalso
          have := IH.2
          by_cases hNm3 : N ∈ i :: F
          · rw [if_pos hNm3] at this
            omega
          · rw [if_neg hNm3] at this
            omega
    · -- the key holds the newest edit (v j, c0 + j)
      have hj0 : j ≠ 0 := fun h => hcond (Or.inl h)
      have hNnotF : N ∉ F := fun h => hcond (Or.inr h)
      have hsome : hmGet s.pending_light_brightness k = some (v j, c0 + j) := by
        rw [hpend, if_neg hcond]
      by_cases hij : i = j
      · -- counters match; this only happens for the final commit
        subst hij
        have hiNeq : i = N := by omega
        subst hiNeq
        have hinv2 : C1Inv k v c0 i i (i :: F)
            { s with pending_light_brightness :=
                hmRemove s.pending_light_brightness k } := by
          refine ⟨le_refl i, hcnt, fun _ => le_refl i, ?_⟩
          show hmGet (hmRemove s.pending_light_brightness k) k = _
          rw [hmGet_hmRemove_self, if_pos (Or.inr (List.mem_cons_self _ _))]
        have IH := ih _ hinv2
        cases hb : get_bridge s.config with
        | none =>
          have hupd : update s (.ApplyLightBrightness k (c0 + i)) =
              ({ s with pending_light_brightness :=
                  hmRemove s.pending_light_brightness k }, []) := by
            simp [update, hsome, hb]
          simp only [List.map_cons, hmsg, run_cons, hupd, List.nil_append] at IH ⊢
          refine ⟨IH.1, ?_⟩
          rw [if_neg hNnotF]
          have := IH.2
          rw [if_pos (List.mem_cons_self _ _)] at this
          omega
        | some b =>
          have hupd : update s (.ApplyLightBrightness k (c0 + i)) =
              ({ s with pending_light_brightness :=
                  hmRemove s.pending_light_brightness k },
               [.pushLightState k { brightness := some (rustAsU8 (v i)) }]) := by
            simp [update, hsome, hb]
          simp only [List.map_cons, hmsg, run_cons, hupd] at IH ⊢
          constructor
          · intro e he hp
            rcases List.mem_append.mp he with h1 | h2
            · rw [List.mem_singleton] at h1
              rw [h1]
            · exact IH.1 e h2 hp
          · rw [List.filter_append, List.length_append]
            have h1 : (List.filter isPush
                [Eff.pushLightState k { brightness := some (rustAsU8 (v i)) }]).length
                = 1 := rfl
            rw [h1, if_neg hNnotF]
            have := IH.2
            rw [if_pos (List.mem_cons_self _ _)] at this
            omega
      · -- counters differ: this fire is stale and a no-op
        have hne : c0 + j ≠ c0 + i := by omega
        have hupd : update s (.ApplyLightBrightness k (c0 + i)) = (s, []) := by
          simp [update, hsome, hne]
        have hiNne : i ≠ N := by
          intro he
          subst he
          omega
        have hNF2 : N ∈ i :: F → N ≤ j := by
          intro hN
          rcases List.mem_cons.mp hN with h | h
          · exact absurd h.symm hiNne
          · exact hNF h
        have hNnotF2 : N ∉ i :: F := by
          intro hN
          rcases List.mem_cons.mp hN with h | h
          · exact hiNne h.symm
          · exact hNnotF h
        have hinv2 : C1Inv k v c0 N j (i :: F) s := by
          refine ⟨hjN, hcnt, hNF2, ?_⟩
          rw [hpend, if_neg hcond, if_neg (by simp [hj0, hNnotF2])]
        have IH := ih _ hinv2
        simp only [List.map_cons, hmsg, run_cons, hupd, List.nil_append] at IH ⊢
        refine ⟨IH.1, ?_⟩
        rw [if_neg hNnotF]
        have := IH.2
        rw [if_neg hNnotF2] at this
        omega

/-- C1: over any well-formed rapid-edit episode of `N` edits to the same
light-brightness key — each edit submitted within the 300 ms settle
delay of the previous one, commits firing in any admissible interleaving
— starting from a state holding no pending edit for that key, at most
one push is issued to the Remote Resource Client, and any push issued
carries exactly the value of the last (`N`-th) edit submitted. -/
theorem c1_debounced_rapid_edits (k : String) (v : ℕ → ℚ) (N : ℕ)
    (s0 : AppModel) (tr : List TEv)
    (htr : RapidTrace N 0 [] tr)
    (hpend : hmGet s0.pending_light_brightness k = none) :
    (∀ e ∈ (run s0 (tr.map (toMsgC1 k v s0.debounce_counter))).2,
        isPush e = true →
        e = .pushLightState k { brightness := some (rustAsU8 (v N)) }) ∧
    ((run s0 (tr.map (toMsgC1 k v s0.debounce_counter))).2.filter isPush).length
      ≤ 1 := by
  have hinv : C1Inv k v s0.debounce_counter N 0 [] s0 := by
    refine ⟨Nat.zero_le N, rfl, by simp, ?_⟩
    rw [if_pos (Or.inl rfl)]
    exact hpend
  have h := c1_aux k v s0.debounce_counter N tr 0 [] htr s0 hinv
  refine ⟨h.1, ?_⟩
  have := h.2
  rw [if_neg (by simp)] at this
  exact this

/-- C1 witness: a concrete episode of two rapid edits (values 50 then
100) followed by both commit fires, starting from the fresh state with a
configured bridge: every push issued is the single brightness-override
push carrying the second edit's value, and at most one push occurs. -/
theorem c1_debounced_rapid_edits_witness :
    (∀ e ∈ (run (emptyModel cfgFull)
        ([TEv.eset 1, TEv.eset 2, TEv.efire 1, TEv.efire 2].map
          (toMsgC1 "l1" (fun i => (50 * i : ℚ))
            (emptyModel cfgFull).debounce_counter))).2,
        isPush e = true →
        e = .pushLightState "l1"
          { brightness := some (rustAsU8 ((fun i => (50 * i : ℚ)) 2)) }) ∧
    ((run (emptyModel cfgFull)
        ([TEv.eset 1, TEv.eset 2, TEv.efire 1, TEv.efire 2].map
          (toMsgC1 "l1" (fun i => (50 * i : ℚ))
            (emptyModel cfgFull).debounce_counter))).2.filter isPush).length
      ≤ 1 := by
  have htr : RapidTrace 2 0 [] [TEv.eset 1, TEv.eset 2, TEv.efire 1, TEv.efire 2] :=
    RapidTrace.set 0 [] _ (by omega)
      (RapidTrace.set 1 [] _ (by omega)
        (RapidTrace.fire 2 [] _ 1 (by omega) (by omega) (by omega) (by simp)
          (RapidTrace.fire 2 [1] _ 2 (by omega) (by omega) (by omega) (by simp)
            (RapidTrace.nil 2 [2, 1]))))
  exact c1_debounced_rapid_edits "l1" (fun i => (50 * i : ℚ)) 2
    (emptyModel cfgFull) _ htr rfl
